import Mathlib

/-!
Shallow embedding of `pkg/provider/vault/auth.go` from the
external-secrets Vault provider: the authentication orchestrator
(`setAuth`), the token validator (`checkToken`), the namespace scope
switch (`useAuthNamespace`), the session revoker (`revokeTokenIfValid`)
and the service-account token request builder
(`createServiceAccountToken`), together with theorems settling the
specification claims about them.

External collaborators (the Vault HTTP API, the per-mechanism login
strategies, the Kubernetes token API) are modelled as oracles: values or
functions supplied as parameters, exactly at the `(attempted, err)` /
response boundaries the Go code consumes them through.
-/

/-- Result of a token self-lookup (`resp.Data` of `LookupSelfWithContext`),
as consumed by `checkToken` in auth.go. `typ` models the `"type"` field
(`none` = field absent); `ttl` models the `"ttl"` field (`none` = field
absent, `some none` = present but not parseable as an int64,
`some (some n)` = parses to `n`); `expireTime` models the `"expire_time"`
field (`none` = field absent, `some b` = present with `b` true exactly
when the value is non-null). -/
structure LookupData where
  typ : Option String
  ttl : Option (Option Int)
  expireTime : Option Bool
deriving DecidableEq, Repr

/-- Embedding of `checkToken` (auth.go lines 152-191). The argument is the
outcome of `token.LookupSelfWithContext`: `.error e` when the call itself
errors, `.ok none` when it returns a nil response with no error, and
`.ok (some d)` otherwise. Returns the `(bool, error)` pair of the Go
function, with `none` standing for a nil error. -/
def checkToken (r : Except String (Option LookupData)) : Bool × Option String :=
  match r with
  | .error e => (false, some e)
  | .ok none => (false, some "no response nor error for token lookup")
  | .ok (some d) =>
    match d.typ with
    | none => (false, some "could not assert token type")
    | some tokenType =>
      if tokenType = "batch" then (false, none)
      else
        match d.ttl with
        | none => (false, some "no TTL found in response")
        | some none => (false, some "invalid token TTL")
        | some (some ttlInt) =>
          match d.expireTime with
          | none => (false, some "no expiration time found in response")
          | some expireNonNull =>
            if ttlInt < 60 && expireNonNull then (false, none)
            else (true, none)

/-- C3: for a lookup response with a type field present and not "batch"
and a parseable ttl below 60, `checkToken` returns `(false, nil)` when the
expire_time field is present and non-null, and `(true, nil)` when the
expire_time field is present but null (a non-expiring token): the
asymmetry for non-expiring tokens is preserved. -/
theorem checkToken_expiry_buffer (d : LookupData) (ty : String) (t : Int)
    (hty : d.typ = some ty) (hb : ty ≠ "batch")
    (httl : d.ttl = some (some t)) (ht : t < 60) :
    (d.expireTime = some true → checkToken (.ok (some d)) = (false, none)) ∧
    (d.expireTime = some false → checkToken (.ok (some d)) = (true, none)) := by
  constructor <;> intro hexp <;>
    simp [checkToken, hty, hb, httl, hexp, ht]

/-- Witness for C3 at the concrete inputs of the claim: ttl 59 with a
non-null expire_time is invalid, ttl 59 with a null expire_time is valid. -/
theorem checkToken_expiry_buffer_witness :
    checkToken (.ok (some ⟨some "service", some (some 59), some true⟩)) = (false, none) ∧
    checkToken (.ok (some ⟨some "service", some (some 59), some false⟩)) = (true, none) :=
  ⟨(checkToken_expiry_buffer ⟨some "service", some (some 59), some true⟩
      "service" 59 rfl (by decide) rfl (by decide)).1 rfl,
   (checkToken_expiry_buffer ⟨some "service", some (some 59), some false⟩
      "service" 59 rfl (by decide) rfl (by decide)).2 rfl⟩

/-- C5: a lookup response whose type field is "batch" yields
`(false, nil)` from `checkToken` regardless of the ttl and expire_time
fields (their values and even their presence), because the batch check
precedes the field checks. -/
theorem checkToken_batch_excluded (d : LookupData) (hty : d.typ = some "batch") :
    checkToken (.ok (some d)) = (false, none) := by
  simp [checkToken, hty]

/-- Witness for C5: type "batch" with ttl 3600 is invalid, and so is type
"batch" with the ttl and expire_time fields entirely absent. -/
theorem checkToken_batch_excluded_witness :
    checkToken (.ok (some ⟨some "batch", some (some 3600), some true⟩)) = (false, none) ∧
    checkToken (.ok (some ⟨some "batch", none, none⟩)) = (false, none) :=
  ⟨checkToken_batch_excluded ⟨some "batch", some (some 3600), some true⟩ rfl,
   checkToken_batch_excluded ⟨some "batch", none, none⟩ rfl⟩

/-- Counterexample to C4 as stated: a lookup response of type "batch"
lacking both the ttl and expire_time fields makes `checkToken` return
`(false, nil)` — no error — because the batch-type check at auth.go line
169 precedes the ttl field check at line 172. The claim asserted every
response lacking a ttl field yields a non-nil error. -/
theorem checkToken_missing_ttl_batch_cex :
    checkToken (.ok (some ⟨some "batch", none, none⟩)) = (false, none) := by
  decide

/-- C4 (amended): a lookup response lacking the type field yields a
non-nil error from `checkToken`; and a response whose type field is
present with a value other than "batch" yields a non-nil error — never
`(false, nil)` — when it lacks the ttl field or the expire_time field. -/
theorem checkToken_malformed_error (d : LookupData) :
    (d.typ = none → (checkToken (.ok (some d))).2.isSome) ∧
    (∀ ty, d.typ = some ty → ty ≠ "batch" →
      (d.ttl = none ∨ d.expireTime = none) →
      (checkToken (.ok (some d))).2.isSome) := by
  constructor
  · intro h
    simp [checkToken, h]
  · intro ty hty hb hmiss
    rcases hmiss with h | h
    · simp [checkToken, hty, hb, h]
    · rcases httl : d.ttl with _ | tv
      · simp [checkToken, hty, hb, httl]
      · rcases tv with _ | t <;> simp [checkToken, hty, hb, httl, h]

/-- Witness for C4 (amended): a non-batch response missing only the ttl
field yields an error, as does one missing the type field. -/
theorem checkToken_malformed_error_witness :
    (checkToken (.ok (some ⟨some "service", none, some true⟩))).2.isSome ∧
    (checkToken (.ok (some ⟨none, some (some 120), some true⟩))).2.isSome :=
  ⟨(checkToken_malformed_error ⟨some "service", none, some true⟩).2
      "service" rfl (by decide) (Or.inl rfl),
   (checkToken_malformed_error ⟨none, some (some 120), some true⟩).1 rfl⟩

/-- The eight authentication mechanisms dispatched by `setAuth`
(auth.go lines 68-113), one per strategy function. -/
inductive Mech where
  | secretKey
  | appRole
  | kubernetes
  | ldap
  | userPass
  | jwt
  | cert
  | iam
deriving DecidableEq, Repr

/-- The fixed priority order in which `setAuth` tries the mechanism
strategies: `setSecretKeyToken`, `setAppRoleToken`,
`setKubernetesAuthToken`, `setLdapAuthToken`, `setUserPassAuthToken`,
`setJwtAuthToken`, `setCertAuthToken`, `setIamAuthToken`. -/
def mechOrder : List Mech :=
  [.secretKey, .appRole, .kubernetes, .ldap, .userPass, .jwt, .cert, .iam]

/-- The Vault auth block of the store config (`c.store.Auth`): only its
`Namespace` field is read by the code under verification; the mechanism
sub-configs are consumed inside the strategy collaborators, which are
modelled as an oracle (see `setAuth`). -/
structure AuthConfig where
  nspace : Option String
deriving DecidableEq, Repr

/-- The Vault store config as read by auth.go: `Namespace`
(`c.store.Namespace`, a `*string`) and `Auth` (`c.store.Auth`, nil when
no auth mechanism is configured). -/
structure Store where
  nspace : Option String
  auth : Option AuthConfig
deriving DecidableEq, Repr

/-- The operating namespace of a store: `*c.store.Namespace`, or the
empty string when none is set (auth.go lines 210-213). -/
def operatingNamespace (s : Store) : String :=
  match s.nspace with
  | some n => n
  | none => ""

/-- The restore closure returned by `useAuthNamespace`: either the no-op
(auth.go lines 229-231) or a call to `SetNamespace ns` (lines 222-225). -/
inductive RestoreFn where
  | noop
  | setNs (ns : String)
deriving DecidableEq, Repr

/-- Embedding of `client.useAuthNamespace` (auth.go lines 209-232).
Returns the namespace passed to `SetNamespace` now (when switching to the
auth namespace), if any, together with the restore closure. -/
def useAuthNamespace (s : Store) : Option String × RestoreFn :=
  let ns := operatingNamespace s
  match s.auth with
  | some a =>
    match a.nspace with
    | some authNs =>
      if authNs = ns then (none, .noop)
      else (some authNs, .setNs ns)
    | none => (none, .noop)
  | none => (none, .noop)

/-- Runs a restore closure against the active namespace, also extending
the log of `SetNamespace` calls. -/
def applyRestore (r : RestoreFn) (ns : String) (sets : List String) :
    String × List String :=
  match r with
  | .noop => (ns, sets)
  | .setNs n => (n, sets ++ [n])

/-- The client session state read by `setAuth`: the store config, the
bearer token string held by the client handle (`c.client.Token()`), the
outcome of a self-lookup on the held token handle (`c.token`, an oracle
for `LookupSelfWithContext`), and the active namespace currently set on
the client handle. -/
structure Session where
  store : Store
  tokenString : String
  lookup : Except String (Option LookupData)
  activeNs : String
deriving Repr

/-- Observable outcome of a `setAuth` run: the returned error (`none` =
nil), the active namespace on the client handle at return, the sequence
of `SetNamespace` calls made, the strategies invoked in order, the number
of times the deferred restore closure ran, and whether the held token was
introspected. -/
structure SetAuthOut where
  err : Option String
  finalNs : String
  nsSets : List String
  invoked : List Mech
  restoreCount : Nat
  lookedUp : Bool
deriving DecidableEq, Repr

/-- The terminal error of `setAuth` when no mechanism was attempted
(`errAuthFormat`, auth.go line 37). -/
def errAuthFormat : String :=
  "cannot initialize Vault client: no valid auth method specified"

/-- The mechanism cascade of `setAuth` (auth.go lines 68-115): each
strategy is called in order with contract `(attempted, err)`; the first
`attempted = true` stops the walk and its error is returned; if the list
is exhausted the terminal `errAuthFormat` error is returned. Also
returns the list of strategies invoked. -/
def setAuthChain (strat : Mech → Bool × Option String) :
    List Mech → Option String × List Mech
  | [] => (some errAuthFormat, [])
  | m :: rest =>
    let r := strat m
    if r.1 then (r.2, [m])
    else
      let tail := setAuthChain strat rest
      (tail.1, m :: tail.2)

/-- Embedding of `client.setAuth` (auth.go lines 45-116). `strat` is the
oracle for the eight mechanism strategies (external collaborators with
the uniform `(attempted, err)` contract). If `Auth` is nil, returns
immediately; otherwise sets the store namespace when present, enters the
auth-namespace scope, re-uses the held token when `checkToken` reports it
valid, and otherwise walks the mechanism cascade; the restore closure
runs once on every exit path of the scope (the Go `defer`). -/
def setAuth (sess : Session) (strat : Mech → Bool × Option String) : SetAuthOut :=
  match sess.store.auth with
  | none => ⟨none, sess.activeNs, [], [], 0, false⟩
  | some _ =>
    let s1 : String × List String :=
      match sess.store.nspace with
      | some n => (n, [n])
      | none => (sess.activeNs, [])
    let sw := useAuthNamespace sess.store
    let s2 : String × List String :=
      match sw.1 with
      | some a => (a, s1.2 ++ [a])
      | none => s1
    let looked : Bool := !(sess.tokenString = "")
    let chk : Bool × Option String :=
      if sess.tokenString = "" then (false, none) else checkToken sess.lookup
    let fin := applyRestore sw.2 s2.1 s2.2
    let tail : Option String × List Mech :=
      if chk.1 then (chk.2, [])
      else setAuthChain strat mechOrder
    ⟨tail.1, fin.1, fin.2, tail.2, 1, looked⟩

/-- When some strategy in the list reports `attempted = true`, the
cascade returns the error of the first such strategy and invokes exactly
the strategies up to and including it. -/
theorem setAuthChain_found (strat : Mech → Bool × Option String) :
    ∀ (l : List Mech) (m : Mech),
      l.find? (fun x => (strat x).1) = some m →
      setAuthChain strat l =
        ((strat m).2, l.takeWhile (fun x => !(strat x).1) ++ [m]) := by
  intro l
  induction l with
  | nil => intro m h; simp at h
  | cons a rest ih =>
    intro m h
    by_cases ha : (strat a).1 = true
    · rw [List.find?_cons_of_pos (p := fun x => (strat x).1) rest ha] at h
      obtain rfl : a = m := by injection h
      simp [setAuthChain, ha, List.takeWhile_cons]
    · rw [List.find?_cons_of_neg (p := fun x => (strat x).1) rest (by simpa using ha)] at h
      simp [setAuthChain, ha, List.takeWhile_cons, ih m h]

/-- The strategies invoked by the cascade form a prefix of the list. -/
theorem setAuthChain_found_sublist (strat : Mech → Bool × Option String) :
    ∀ (l : List Mech) (m : Mech),
      l.find? (fun x => (strat x).1) = some m →
      ∃ rest, (l.takeWhile (fun x => !(strat x).1) ++ [m]) ++ rest = l := by
  intro l
  induction l with
  | nil => intro m h; simp at h
  | cons a rest ih =>
    intro m h
    by_cases ha : (strat a).1 = true
    · rw [List.find?_cons_of_pos (p := fun x => (strat x).1) rest ha] at h
      obtain rfl : a = m := by injection h
      exact ⟨rest, by simp [List.takeWhile_cons, ha]⟩
    · rw [List.find?_cons_of_neg (p := fun x => (strat x).1) rest (by simpa using ha)] at h
      obtain ⟨t, ht⟩ := ih m h
      exact ⟨t, by simp [List.takeWhile_cons, ha, ht]⟩

/-- When no strategy reports `attempted = true`, the cascade invokes
every strategy and returns the terminal `errAuthFormat` error. -/
theorem setAuthChain_none (strat : Mech → Bool × Option String) :
    ∀ l : List Mech,
      (∀ m ∈ l, (strat m).1 = false) →
      setAuthChain strat l = (some errAuthFormat, l) := by
  intro l
  induction l with
  | nil => intro _; rfl
  | cons a rest ih =>
    intro h
    have ha := h a (by simp)
    simp [setAuthChain, ha, ih fun m hm => h m (by simp [hm])]

/-- C1: when the session holds a token (non-empty token string) whose
self-lookup reports a type other than "batch", a ttl of at least 60 and
all required fields present, `setAuth` returns a nil error and invokes no
mechanism strategy. -/
theorem setAuth_shortCircuit_reuse (sess : Session) (strat : Mech → Bool × Option String)
    (d : LookupData) (ty : String) (t : Int)
    (htok : ¬ (sess.tokenString = ""))
    (hl : sess.lookup = .ok (some d))
    (hty : d.typ = some ty) (hb : ty ≠ "batch")
    (httl : d.ttl = some (some t)) (ht : 60 ≤ t)
    (hexp : d.expireTime.isSome = true) :
    (setAuth sess strat).err = none ∧ (setAuth sess strat).invoked = [] := by
  have hchk : checkToken sess.lookup = (true, none) := by
    obtain ⟨b, hbb⟩ := Option.isSome_iff_exists.mp hexp
    have hlt : ¬ (t < 60) := not_lt.mpr ht
    simp [checkToken, hl, hty, hb, httl, hbb, hlt]
  rcases hauth : sess.store.auth with _ | a
  · simp [setAuth, hauth]
  · simp [setAuth, hauth, htok, hchk]

/-- Witness for C1: a session with store namespace "ops", auth namespace
"authns", a held token of type "service" with ttl 120, and a strategy
oracle that would attempt AppRole, re-uses the token: nil error, no
strategy invoked. -/
theorem setAuth_shortCircuit_reuse_witness :
    (setAuth ⟨⟨some "ops", some ⟨some "authns"⟩⟩, "tok",
        .ok (some ⟨some "service", some (some 120), some true⟩), "ops"⟩
      (fun _ => (true, some "mechanism error"))).err = none ∧
    (setAuth ⟨⟨some "ops", some ⟨some "authns"⟩⟩, "tok",
        .ok (some ⟨some "service", some (some 120), some true⟩), "ops"⟩
      (fun _ => (true, some "mechanism error"))).invoked = [] :=
  setAuth_shortCircuit_reuse
    ⟨⟨some "ops", some ⟨some "authns"⟩⟩, "tok",
      .ok (some ⟨some "service", some (some 120), some true⟩), "ops"⟩
    (fun _ => (true, some "mechanism error"))
    ⟨some "service", some (some 120), some true⟩ "service" 120
    (by decide) rfl rfl (by decide) rfl (by decide) rfl

/-- C6: if the store's auth block is nil, `setAuth` returns a nil error
immediately with no namespace switch, no token introspection, no
mechanism invocation and no restore; and if auth is configured, every
strategy reports `attempted = false` and no valid token is held, it
returns the terminal `errAuthFormat` error. -/
theorem setAuth_optional_or_noMethod (sess : Session) (strat : Mech → Bool × Option String) :
    (sess.store.auth = none →
      setAuth sess strat = ⟨none, sess.activeNs, [], [], 0, false⟩) ∧
    (sess.store.auth.isSome = true →
      (∀ m, (strat m).1 = false) →
      (sess.tokenString = "" ∨ (checkToken sess.lookup).1 = false) →
      (setAuth sess strat).err = some errAuthFormat) := by
  constructor
  · intro h
    simp [setAuth, h]
  · intro hs hall hnr
    obtain ⟨a, ha⟩ := Option.isSome_iff_exists.mp hs
    have hchain : setAuthChain strat mechOrder = (some errAuthFormat, mechOrder) :=
      setAuthChain_none strat mechOrder fun m _ => hall m
    by_cases htok : sess.tokenString = ""
    · simp [setAuth, ha, htok, hchain]
    · rcases hnr with h | h
      · exact absurd h htok
      · simp [setAuth, ha, htok, h, hchain]

/-- Witness for C6: with a nil auth block `setAuth` is the immediate
nil-error no-effect return, and with auth configured, no held token and
every strategy unattempted it returns the terminal error. -/
theorem setAuth_optional_or_noMethod_witness :
    setAuth ⟨⟨some "ops", none⟩, "", .error "unused", "ops"⟩ (fun _ => (false, none))
      = ⟨none, "ops", [], [], 0, false⟩ ∧
    (setAuth ⟨⟨some "ops", some ⟨none⟩⟩, "", .error "unused", "ops"⟩
      (fun _ => (false, none))).err = some errAuthFormat :=
  ⟨(setAuth_optional_or_noMethod ⟨⟨some "ops", none⟩, "", .error "unused", "ops"⟩
      (fun _ => (false, none))).1 rfl,
   (setAuth_optional_or_noMethod ⟨⟨some "ops", some ⟨none⟩⟩, "", .error "unused", "ops"⟩
      (fun _ => (false, none))).2 rfl (fun _ => rfl) (Or.inl rfl)⟩

/-- C2: when auth is configured, no valid token is held, and at least two
strategies would report `attempted = true`, `setAuth` invokes the
strategies in the fixed priority order up to and including the first one
reporting `attempted = true`, returns that strategy's error (nil on
success), invokes no later strategy (the invoked list is a prefix of the
priority order ending at the first attempted mechanism), and every other
invoked strategy reported `attempted = false`. -/
theorem setAuth_priority_order (sess : Session) (strat : Mech → Bool × Option String)
    (m : Mech)
    (hauth : sess.store.auth.isSome = true)
    (hnoreuse : sess.tokenString = "" ∨ (checkToken sess.lookup).1 = false)
    (_hmulti : 1 < (mechOrder.filter (fun x => (strat x).1)).length)
    (hm : mechOrder.find? (fun x => (strat x).1) = some m) :
    (setAuth sess strat).err = (strat m).2 ∧
    (setAuth sess strat).invoked
      = mechOrder.takeWhile (fun x => !(strat x).1) ++ [m] ∧
    (∃ rest, (setAuth sess strat).invoked ++ rest = mechOrder) ∧
    (∀ k, k ∈ (setAuth sess strat).invoked → k ≠ m → (strat k).1 = false) := by
  obtain ⟨a, ha⟩ := Option.isSome_iff_exists.mp hauth
  have hchain := setAuthChain_found strat mechOrder m hm
  have hinv : (setAuth sess strat).invoked
      = mechOrder.takeWhile (fun x => !(strat x).1) ++ [m] := by
    by_cases htok : sess.tokenString = ""
    · simp [setAuth, ha, htok, hchain]
    · rcases hnoreuse with h | h
      · exact absurd h htok
      · simp [setAuth, ha, htok, h, hchain]
  refine ⟨?_, hinv, ?_, ?_⟩
  · by_cases htok : sess.tokenString = ""
    · simp [setAuth, ha, htok, hchain]
    · rcases hnoreuse with h | h
      · exact absurd h htok
      · simp [setAuth, ha, htok, h, hchain]
  · rw [hinv]
    exact setAuthChain_found_sublist strat mechOrder m hm
  · intro k hk hkm
    rw [hinv] at hk
    rcases List.mem_append.mp hk with hk | hk
    · simpa using List.mem_takeWhile_imp hk
    · exact absurd (List.mem_singleton.mp hk) hkm

/-- Witness for C2 at the claim's particular instance: both AppRole and
Kubernetes configured (attempted), no token held; the secret-key strategy
is probed (not configured), AppRole is the one attempted, its error is
returned, and Kubernetes is never invoked. -/
theorem setAuth_priority_order_witness :
    (setAuth ⟨⟨some "ops", some ⟨none⟩⟩, "", .error "unused", "ops"⟩
      (fun m => (m = Mech.appRole || m = Mech.kubernetes,
        if m = Mech.appRole then none else some "k8s login failed"))).err = none ∧
    (setAuth ⟨⟨some "ops", some ⟨none⟩⟩, "", .error "unused", "ops"⟩
      (fun m => (m = Mech.appRole || m = Mech.kubernetes,
        if m = Mech.appRole then none else some "k8s login failed"))).invoked
      = [Mech.secretKey, Mech.appRole] := by
  have h := setAuth_priority_order
    ⟨⟨some "ops", some ⟨none⟩⟩, "", .error "unused", "ops"⟩
    (fun m => (m = Mech.appRole || m = Mech.kubernetes,
      if m = Mech.appRole then none else some "k8s login failed"))
    Mech.appRole rfl (Or.inl rfl) (by decide) (by decide)
  refine ⟨h.1.trans (by decide), h.2.1.trans (by decide)⟩

/-- C7: when auth is configured (the namespace scope is entered) and the
client handle starts at the store's operating namespace, every exit path
of `setAuth` runs the deferred restore exactly once and leaves the active
namespace equal to the operating namespace (the empty string when none is
set); and when the auth namespace is absent or equal to the operating
namespace, the restore closure returned by `useAuthNamespace` is the
no-op. -/
theorem setAuth_namespace_restore (sess : Session) (strat : Mech → Bool × Option String)
    (hauth : sess.store.auth.isSome = true)
    (hns : sess.activeNs = operatingNamespace sess.store) :
    (setAuth sess strat).restoreCount = 1 ∧
    (setAuth sess strat).finalNs = operatingNamespace sess.store ∧
    (∀ a, sess.store.auth = some a →
      (a.nspace = none ∨ a.nspace = some (operatingNamespace sess.store)) →
      (useAuthNamespace sess.store).2 = RestoreFn.noop) := by
  obtain ⟨a, ha⟩ := Option.isSome_iff_exists.mp hauth
  refine ⟨by simp [setAuth, ha], ?_, ?_⟩
  · rcases hsn : sess.store.nspace with _ | op
    · have hop : operatingNamespace sess.store = "" := by
        simp [operatingNamespace, hsn]
      rcases han : a.nspace with _ | authNs
      · simp [setAuth, ha, hsn, useAuthNamespace, operatingNamespace,
          han, applyRestore, hns.trans hop]
      · by_cases he : authNs = ""
        · simp [setAuth, ha, hsn, useAuthNamespace, operatingNamespace,
            han, he, applyRestore, hns.trans hop]
        · simp [setAuth, ha, hsn, useAuthNamespace, operatingNamespace,
            han, he, applyRestore]
    · have hop : operatingNamespace sess.store = op := by
        simp [operatingNamespace, hsn]
      rcases han : a.nspace with _ | authNs
      · simp [setAuth, ha, hsn, useAuthNamespace, operatingNamespace,
          han, applyRestore]
      · by_cases he : authNs = op
        · simp [setAuth, ha, hsn, useAuthNamespace, operatingNamespace,
            han, he, applyRestore]
        · simp [setAuth, ha, hsn, useAuthNamespace, operatingNamespace,
            han, he, applyRestore]
  · intro b hb hnoop
    rw [ha] at hb
    obtain rfl : a = b := by injection hb
    rcases hnoop with h | h <;>
      simp [useAuthNamespace, ha, h]

/-- Witness for C7: store namespace "ops", auth namespace "vault-auth",
no held token, AppRole attempted with an error: the restore ran once, the
final namespace is back to "ops", and with auth namespace equal to the
operating namespace the restore closure is the no-op. -/
theorem setAuth_namespace_restore_witness :
    (setAuth ⟨⟨some "ops", some ⟨some "vault-auth"⟩⟩, "", .error "unused", "ops"⟩
      (fun m => (m = Mech.appRole, some "approle login failed"))).restoreCount = 1 ∧
    (setAuth ⟨⟨some "ops", some ⟨some "vault-auth"⟩⟩, "", .error "unused", "ops"⟩
      (fun m => (m = Mech.appRole, some "approle login failed"))).finalNs = "ops" ∧
    (useAuthNamespace ⟨some "ops", some ⟨some "ops"⟩⟩).2 = RestoreFn.noop := by
  have h1 := setAuth_namespace_restore
    ⟨⟨some "ops", some ⟨some "vault-auth"⟩⟩, "", .error "unused", "ops"⟩
    (fun m => (m = Mech.appRole, some "approle login failed")) rfl (by decide)
  have h2 := setAuth_namespace_restore
    ⟨⟨some "ops", some ⟨some "ops"⟩⟩, "", .error "unused", "ops"⟩
    (fun m => (m = Mech.appRole, some "approle login failed")) rfl (by decide)
  exact ⟨h1.1, h1.2.1.trans (by decide),
    h2.2.2 ⟨some "ops"⟩ rfl (Or.inr (by decide))⟩

/-- Error wrapper of `revokeTokenIfValid` (`errVaultRevokeToken`,
auth.go line 40): `fmt.Errorf("error while revoking token: %w", err)`. -/
def errVaultRevoke (e : String) : String :=
  "error while revoking token: " ++ e

/-- Oracle for the backend calls made by `revokeTokenIfValid`: the
self-lookup outcome and the self-revoke outcome, both as functions of the
token currently held by the client handle. -/
structure RevEnv where
  lookup : String → Except String (Option LookupData)
  revoke : String → Option String

/-- Local credential state of the client handle: `client.Token()`;
`ClearToken` resets it to the empty string. -/
structure RevState where
  token : String
deriving DecidableEq, Repr

/-- Embedding of `revokeTokenIfValid` (auth.go lines 193-207): introspect
the held token; on introspection error return it wrapped; if valid,
self-revoke, returning any failure wrapped, and clear the local
credential only after the revoke succeeded; if not valid, no-op with nil
error. Returns the error and the resulting credential state. -/
def revokeTokenIfValid (env : RevEnv) (s : RevState) : Option String × RevState :=
  let res := checkToken (env.lookup s.token)
  match res.2 with
  | some e => (some (errVaultRevoke e), s)
  | none =>
    if res.1 then
      match env.revoke s.token with
      | some e => (some (errVaultRevoke e), s)
      | none => (none, ⟨""⟩)
    else (none, s)

/-- C8: calling `revokeTokenIfValid` twice in a row — the first call on a
session whose token is introspected as valid and whose revoke succeeds,
the second after the credential was cleared (provided the cleared
credential is introspected as invalid without error) — returns a nil
error both times, and the credential is empty after the first call. -/
theorem revoke_idempotent (env : RevEnv) (s : RevState)
    (h1 : checkToken (env.lookup s.token) = (true, none))
    (h2 : env.revoke s.token = none)
    (h3 : checkToken (env.lookup "") = (false, none)) :
    (revokeTokenIfValid env s).1 = none ∧
    (revokeTokenIfValid env s).2.token = "" ∧
    (revokeTokenIfValid env ((revokeTokenIfValid env s).2)).1 = none := by
  have hfirst : revokeTokenIfValid env s = (none, ⟨""⟩) := by
    simp [revokeTokenIfValid, h1, h2]
  refine ⟨by rw [hfirst], by rw [hfirst], ?_⟩
  rw [hfirst]
  simp [revokeTokenIfValid, h3]

/-- Witness for C8: a concrete oracle whose lookup reports a valid
service token for "tok" and an errorless invalid introspection for the
cleared credential, with a successful revoke: both calls return nil and
the credential is cleared by the first. -/
theorem revoke_idempotent_witness :
    (revokeTokenIfValid
      ⟨fun t => if t = "tok" then .ok (some ⟨some "service", some (some 120), some true⟩)
                else .ok (some ⟨some "service", some (some 0), some true⟩),
        fun _ => none⟩ ⟨"tok"⟩).1 = none ∧
    (revokeTokenIfValid
      ⟨fun t => if t = "tok" then .ok (some ⟨some "service", some (some 120), some true⟩)
                else .ok (some ⟨some "service", some (some 0), some true⟩),
        fun _ => none⟩ ⟨"tok"⟩).2.token = "" ∧
    (revokeTokenIfValid
      ⟨fun t => if t = "tok" then .ok (some ⟨some "service", some (some 120), some true⟩)
                else .ok (some ⟨some "service", some (some 0), some true⟩),
        fun _ => none⟩
      ((revokeTokenIfValid
        ⟨fun t => if t = "tok" then .ok (some ⟨some "service", some (some 120), some true⟩)
                  else .ok (some ⟨some "service", some (some 0), some true⟩),
          fun _ => none⟩ ⟨"tok"⟩).2)).1 = none :=
  revoke_idempotent
    ⟨fun t => if t = "tok" then .ok (some ⟨some "service", some (some 120), some true⟩)
              else .ok (some ⟨some "service", some (some 0), some true⟩),
      fun _ => none⟩ ⟨"tok"⟩
    (by decide) rfl (by decide)

/-- C10: `revokeTokenIfValid` leaves the local credential unchanged on
every path except a successful revoke: when the introspection errors,
when the token is reported invalid, and when the revoke call fails, the
state is returned untouched (only the wrapped error differs). -/
theorem revoke_error_paths_preserve_token (env : RevEnv) (s : RevState) :
    (∀ e, (checkToken (env.lookup s.token)).2 = some e →
      revokeTokenIfValid env s = (some (errVaultRevoke e), s)) ∧
    (checkToken (env.lookup s.token) = (false, none) →
      revokeTokenIfValid env s = (none, s)) ∧
    (∀ e, checkToken (env.lookup s.token) = (true, none) →
      env.revoke s.token = some e →
      revokeTokenIfValid env s = (some (errVaultRevoke e), s)) := by
  refine ⟨?_, ?_, ?_⟩
  · intro e he
    simp [revokeTokenIfValid, he]
  · intro h
    simp [revokeTokenIfValid, h]
  · intro e hv hr
    simp [revokeTokenIfValid, hv, hr]

/-- Witness for C10 on the revoke-failure path: a valid token whose
self-revoke fails leaves the credential in place and returns the wrapped
revoke error. -/
theorem revoke_error_paths_preserve_token_witness :
    revokeTokenIfValid
      ⟨fun _ => .ok (some ⟨some "service", some (some 120), some true⟩),
        fun _ => some "permission denied"⟩ ⟨"tok"⟩
      = (some (errVaultRevoke "permission denied"), ⟨"tok"⟩) :=
  (revoke_error_paths_preserve_token
    ⟨fun _ => .ok (some ⟨some "service", some (some 120), some true⟩),
      fun _ => some "permission denied"⟩ ⟨"tok"⟩).2.2
    "permission denied" (by decide) rfl

/-- The service-account selector consumed by
`createServiceAccountToken`: name, optional namespace override, and
configured audiences (`esmeta.ServiceAccountSelector`). -/
structure ServiceAccountSelector where
  name : String
  nspace : Option String
  audiences : List String
deriving DecidableEq, Repr

/-- The Kubernetes TokenRequest as assembled by
`createServiceAccountToken` before it is sent to the cluster identity
collaborator: target namespace, audiences, and expiration seconds. -/
structure TokenRequest where
  nspace : String
  audiences : List String
  expirationSeconds : Int
deriving DecidableEq, Repr

/-- The cluster-wide store kind constant
(`esv1.ClusterSecretStoreKind`). -/
def ClusterSecretStoreKind : String := "ClusterSecretStore"

/-- Embedding of `createServiceAccountToken` (auth.go lines 118-149),
up to the token request it hands to the cluster identity collaborator:
audiences are the selector's audiences extended with the additional
audiences when the latter are non-empty; the expiration is the
caller-supplied seconds; the namespace is the ambient one, overridden by
the selector's namespace when the store kind is ClusterSecretStore and
the selector carries one. -/
def createServiceAccountToken (storeKind : String) (ambientNs : String)
    (serviceAccountRef : ServiceAccountSelector) (additionalAud : List String)
    (expirationSeconds : Int) : TokenRequest :=
  let audiences :=
    if additionalAud.length > 0 then serviceAccountRef.audiences ++ additionalAud
    else serviceAccountRef.audiences
  let req : TokenRequest := ⟨ambientNs, audiences, expirationSeconds⟩
  if storeKind = ClusterSecretStoreKind then
    match serviceAccountRef.nspace with
    | some n => ⟨n, audiences, expirationSeconds⟩
    | none => req
  else req

/-- C9: the token request built by `createServiceAccountToken` carries as
audiences exactly the union (as sets of strings) of the selector's
configured audiences and the additional audiences, its expiration is the
caller-supplied seconds, and when the store kind is ClusterSecretStore
and the selector carries a namespace, that namespace is used for the
request instead of the ambient one. -/
theorem createServiceAccountToken_request (storeKind ambientNs : String)
    (ref : ServiceAccountSelector) (additionalAud : List String)
    (expirationSeconds : Int) :
    (∀ aud, aud ∈ (createServiceAccountToken storeKind ambientNs ref
        additionalAud expirationSeconds).audiences ↔
      (aud ∈ ref.audiences ∨ aud ∈ additionalAud)) ∧
    (createServiceAccountToken storeKind ambientNs ref
        additionalAud expirationSeconds).expirationSeconds = expirationSeconds ∧
    (∀ n, storeKind = ClusterSecretStoreKind → ref.nspace = some n →
      (createServiceAccountToken storeKind ambientNs ref
        additionalAud expirationSeconds).nspace = n) := by
  have haud : (createServiceAccountToken storeKind ambientNs ref
      additionalAud expirationSeconds).audiences
      = (if additionalAud.length > 0 then ref.audiences ++ additionalAud
         else ref.audiences) := by
    by_cases hk : storeKind = ClusterSecretStoreKind
    · rcases hn : ref.nspace with _ | n <;>
        simp [createServiceAccountToken, hk, hn]
    · simp [createServiceAccountToken, hk]
  refine ⟨?_, ?_, ?_⟩
  · intro aud
    rw [haud]
    rcases additionalAud with _ | ⟨b, l⟩
    · simp
    · simp [List.mem_append]
  · by_cases hk : storeKind = ClusterSecretStoreKind
    · rcases hn : ref.nspace with _ | n <;>
        simp [createServiceAccountToken, hk, hn]
    · simp [createServiceAccountToken, hk]
  · intro n hk hn
    simp [createServiceAccountToken, hk, hn]

/-- Witness for C9: a ClusterSecretStore-kind request for a selector with
namespace "team-a" and audiences ["vault"], with additional audience
"sts.amazonaws.com" and expiration 600: the request carries both
audiences, expiration 600, and namespace "team-a". -/
theorem createServiceAccountToken_request_witness :
    ("vault" ∈ (createServiceAccountToken ClusterSecretStoreKind "ambient"
        ⟨"sa", some "team-a", ["vault"]⟩ ["sts.amazonaws.com"] 600).audiences ∧
     "sts.amazonaws.com" ∈ (createServiceAccountToken ClusterSecretStoreKind "ambient"
        ⟨"sa", some "team-a", ["vault"]⟩ ["sts.amazonaws.com"] 600).audiences) ∧
    (createServiceAccountToken ClusterSecretStoreKind "ambient"
        ⟨"sa", some "team-a", ["vault"]⟩ ["sts.amazonaws.com"] 600).expirationSeconds
      = 600 ∧
    (createServiceAccountToken ClusterSecretStoreKind "ambient"
        ⟨"sa", some "team-a", ["vault"]⟩ ["sts.amazonaws.com"] 600).nspace = "team-a" := by
  have h := createServiceAccountToken_request ClusterSecretStoreKind "ambient"
    ⟨"sa", some "team-a", ["vault"]⟩ ["sts.amazonaws.com"] 600
  exact ⟨⟨(h.1 "vault").mpr (Or.inl (by decide)),
      (h.1 "sts.amazonaws.com").mpr (Or.inr (by decide))⟩,
    h.2.1, h.2.2 "team-a" rfl rfl⟩
